import Mathlib

/-!
Verification of the open-deepwiki backend core: the repository identity
resolver (`GithubService._extract_owner_repo_from_url`), the job dispatcher
and status reporter (`TaskService`), and the two Celery worker bodies
(`index_repository_task`, `generate_wiki_task`) together with their
database-session discipline (`db_session_scope`, `update_task_status_in_db`).

The Python code is embedded shallowly: SQLAlchemy sessions become an explicit
(committed store, current store) pair, external collaborators (GitHub fetch,
index pipeline, wiki generation, the Celery worker pool) become explicit
outcome parameters, and Python exceptions become `Except`.
-/

namespace OpenDeepwiki

/-! ## Repository identity resolver
Embeds `GithubService._extract_owner_repo_from_url`
(src/backend/app/services/github_service.py). -/

/-- Character class `[a-zA-Z0-9]` used by the validation regexes. -/
def isAlnum (c : Char) : Bool :=
  (('a' ≤ c && c ≤ 'z') || ('A' ≤ c && c ≤ 'Z') || ('0' ≤ c && c ≤ '9'))

/-- Character class `[a-zA-Z0-9.-]` of the owner capture group. -/
def isOwnerChar (c : Char) : Bool :=
  isAlnum c || c = '.' || c = '-'

/-- Character class `[a-zA-Z0-9_.-]` of the repo capture group. -/
def isRepoChar (c : Char) : Bool :=
  isAlnum c || c = '_' || c = '.' || c = '-'

/-- The literal prefix `https://github.com/` demanded by the extraction
regex (as a character list). -/
def githubBase : List Char := "https://github.com/".data

/-- The match of `^https://github\.com/([a-zA-Z0-9.-]+)/([a-zA-Z0-9_.-]+)`
against the URL.  Both character classes exclude `/`, so the greedy regex is
equivalent to: after the literal prefix, take the longest run of owner
characters (nonempty), demand a `/`, then take the longest run of repo
characters (nonempty).  `re.match` does not anchor the end, so trailing
text is ignored. -/
def matchOwnerRepo (cs : List Char) : Option (List Char × List Char) :=
  if githubBase.isPrefixOf cs then
    let rest := cs.drop githubBase.length
    let owner := rest.takeWhile isOwnerChar
    let rest1 := rest.dropWhile isOwnerChar
    if owner.isEmpty then none
    else
      match rest1 with
      | '/' :: rest2 =>
        let repo := rest2.takeWhile isRepoChar
        if repo.isEmpty then none else some (owner, repo)
      | _ => none
  else none

/-- `repo.endswith(".git")` followed by `repo[:-4]`. -/
def stripGitSuffix (r : List Char) : List Char :=
  if List.isSuffixOf ['.', 'g', 'i', 't'] r then r.take (r.length - 4) else r

/-- Owner validation regex
`^[a-zA-Z0-9](?:[a-zA-Z0-9-]{0,37}[a-zA-Z0-9])?$`: a single alphanumeric
character, or alphanumeric first and last characters with at most 37
alphanumeric-or-hyphen characters between them. -/
def ownerOk : List Char → Bool
  | [] => false
  | [c] => isAlnum c
  | c :: rest =>
    isAlnum c && rest.length ≤ 38
      && rest.dropLast.all (fun d => isAlnum d || d = '-')
      && (match rest.getLast? with
          | some d => isAlnum d
          | none => false)

/-- Whether the character list contains two consecutive periods
(Python `".." in repo`). -/
def hasDotDot : List Char → Bool
  | [] => false
  | [_] => false
  | c :: d :: rest => (c = '.' && d = '.') || hasDotDot (d :: rest)

/-- Repo validation: full match of `^[a-zA-Z0-9_.-]{1,100}$`, and in
addition no `".."` substring and no leading hyphen (the source raises when
`not re.fullmatch(...) or ".." in repo or repo.startswith("-")`). -/
def repoOk (r : List Char) : Bool :=
  (1 ≤ r.length && r.length ≤ 100 && r.all isRepoChar)
    && !hasDotDot r
    && !(match r with
         | '-' :: _ => true
         | _ => false)

/-- `GithubService._extract_owner_repo_from_url`: match the URL regex,
strip a trailing `.git` from the captured repo, validate owner and repo,
and return the pair; every failure raises `ValueError` (embedded as
`Except.error` with the message). -/
def extract_owner_repo_from_url (repoUrl : String) : Except String (String × String) :=
  match matchOwnerRepo repoUrl.data with
  | none =>
    Except.error "Invalid GitHub repository URL format."
  | some (owner, repo0) =>
    let repo := stripGitSuffix repo0
    if !ownerOk owner then
      Except.error ("Invalid owner name format: " ++ String.mk owner)
    else if !repoOk repo then
      Except.error ("Invalid repository name format: " ++ String.mk repo)
    else
      Except.ok (String.mk owner, String.mk repo)

/-! ## Worker pool (Celery) view

`TaskService` talks to Celery through `apply_async` (dispatch) and
`AsyncResult` (status query).  A `CeleryView` is what `AsyncResult`
exposes: `status`, `result`, the `failed()` / `successful()` predicates and
the `info` attribute. -/

structure CeleryView where
  status : String
  result : Option String
  failed : Bool
  successful : Bool
  info : Option String
deriving DecidableEq, Repr

/-- The worker-pool result backend: per-task-id stored metadata, `none`
when the backend holds nothing for that id. -/
structure CeleryBackend where
  meta : String → Option CeleryView

/-- Modelled from the spec: the worker pool's status query for a job id.
`src/` contains only the callers of Celery's `AsyncResult`; its semantics
(the spec's "Worker Pool: query(job_id) -> (status, result, info)" with
PENDING as the initial state of every freshly dispatched, not-yet-started
job) are modelled here: a backend entry when one exists, and the default
PENDING view otherwise. -/
def asyncResult (b : CeleryBackend) (taskId : String) : CeleryView :=
  match b.meta taskId with
  | some v => v
  | none => ⟨"PENDING", none, false, false, none⟩

/-! ## TaskService (src/backend/app/services/task_service.py) -/

/-- The environment `TaskService` runs in: whether `celery_app` imported
(not `None`), whether each task function imported, and the outcome of
`apply_async` (a task id, or a raised exception). -/
structure DispatchEnv where
  appAvailable : Bool
  indexTaskAvailable : Bool
  wikiTaskAvailable : Bool
  applyAsync : Except String String

/-- The simulated job record written at dispatch time (the
`DB_SIMULATION: Task created with status PENDING` write). -/
structure JobRecord where
  taskId : String
  taskName : String
  status : String
deriving DecidableEq, Repr

/-- `TaskService._dispatch_task`: guard on `celery_app` and the task
function, call `apply_async` inside `try`, write the simulated PENDING job
record, return the task id; any exception is caught and converted to
`None`.  The outer `Except` is the exception channel toward the caller:
a raise would be `Except.error`. -/
def dispatch_task (appAvailable taskAvailable : Bool)
    (applyAsync : Except String String) (taskName : String) :
    Except String (Option String × List JobRecord) :=
  if !appAvailable || !taskAvailable then
    Except.ok (none, [])
  else
    match applyAsync with
    | Except.ok taskId => Except.ok (some taskId, [⟨taskId, taskName, "PENDING"⟩])
    | Except.error _ => Except.ok (none, [])

/-- `TaskService.create_indexing_task`: guard on the task function, then
delegate to `_dispatch_task` with name `repository_indexing`. -/
def create_indexing_task (env : DispatchEnv) (repoUrl : String) :
    Except String (Option String × List JobRecord) :=
  if !env.indexTaskAvailable then Except.ok (none, [])
  else dispatch_task env.appAvailable env.indexTaskAvailable env.applyAsync
    "repository_indexing"

/-- `TaskService.create_wiki_generation_task`: guard on the task function,
then delegate to `_dispatch_task` with name `wiki_generation`. -/
def create_wiki_generation_task (env : DispatchEnv) (repoUrl : String) :
    Except String (Option String × List JobRecord) :=
  if !env.wikiTaskAvailable then Except.ok (none, [])
  else dispatch_task env.appAvailable env.wikiTaskAvailable env.applyAsync
    "wiki_generation"

/-- The environment of a `get_task_status` call: whether `celery_app` is
available, the backend state, and whether the `AsyncResult` query machinery
itself throws (`none` = no exception, `some e` = exception message `e`). -/
structure StatusEnv where
  appAvailable : Bool
  backend : CeleryBackend
  queryFault : Option String

/-- `TaskService.get_task_status`: the returned Python dict, embedded as
an association list in the order the dict literals are written in the
source.  The three return sites are the `celery_app`-unavailable dict, the
`except` dict, and the normal dict with the classified `result` and the
`details` from `async_result.info`. -/
def get_task_status (env : StatusEnv) (taskId : String) :
    Except String (List (String × Option String)) :=
  if !env.appAvailable then
    Except.ok [("task_id", some taskId), ("status", some "UNKNOWN"),
               ("result", some "Celery connection error.")]
  else
    match env.queryFault with
    | some e =>
      Except.ok [("task_id", some taskId), ("status", some "ERROR_FETCHING_STATUS"),
                 ("result", some e)]
    | none =>
      let ar := asyncResult env.backend taskId
      let resultValue : Option String :=
        if ar.failed then some ("Failure: " ++ ar.result.getD "None")
        else if ar.successful then ar.result
        else none
      Except.ok [("task_id", some taskId), ("status", some ar.status),
                 ("result", resultValue), ("details", ar.info)]

/-! ## Database model (src/backend/app/db/models.py)

Rows of the four tables touched by the workers.  Timestamps are reduced to
the one the logic reads (`last_indexed_at` becomes a set/unset flag); JSON
results become strings. -/

structure RepoRow where
  id : Nat
  url : String
  name : String
  owner : String
  lastIndexed : Bool
deriving DecidableEq, Repr

structure KbRow where
  id : Nat
  repositoryId : Nat
  documentCount : Nat
deriving DecidableEq, Repr

structure WikiRow where
  id : Nat
  repositoryId : Nat
  contentMarkdown : String
  version : Nat
deriving DecidableEq, Repr

structure TaskRow where
  id : String
  status : String
  result : Option String
  progress : Option Nat
  repositoryId : Option Nat
deriving DecidableEq, Repr

/-- The committed database: one list per table. -/
structure Store where
  repos : List RepoRow
  kbs : List KbRow
  wikis : List WikiRow
  tasks : List TaskRow
deriving DecidableEq, Repr

/-- `db.query(Repository).filter(Repository.url == url).first()`. -/
def findRepoByUrl : List RepoRow → String → Option RepoRow
  | [], _ => none
  | r :: rs, u => if r.url = u then some r else findRepoByUrl rs u

/-- `db.query(KnowledgeBase).filter(KnowledgeBase.repository_id == rid).first()`. -/
def findKbByRepo : List KbRow → Nat → Option KbRow
  | [], _ => none
  | k :: ks, rid => if k.repositoryId = rid then some k else findKbByRepo ks rid

/-- `db.query(WikiDocument).filter(WikiDocument.repository_id == rid).first()`. -/
def findWikiByRepo : List WikiRow → Nat → Option WikiRow
  | [], _ => none
  | w :: ws, rid => if w.repositoryId = rid then some w else findWikiByRepo ws rid

/-- `db.query(Task).filter(Task.id == task_id).first()`. -/
def findTaskById : List TaskRow → String → Option TaskRow
  | [], _ => none
  | t :: ts, tid => if t.id = tid then some t else findTaskById ts tid

/-- Mutate the task row with the given id (SQLAlchemy attribute writes on
the queried object). -/
def setTaskRow (ts : List TaskRow) (tid : String) (f : TaskRow → TaskRow) :
    List TaskRow :=
  ts.map fun t => if t.id = tid then f t else t

/-- Mutate the repository row with the given id. -/
def setRepoRow (rs : List RepoRow) (rid : Nat) (f : RepoRow → RepoRow) :
    List RepoRow :=
  rs.map fun r => if r.id = rid then f r else r

/-- Mutate the knowledge-base row for the given repository id. -/
def setKbRow (ks : List KbRow) (rid : Nat) (f : KbRow → KbRow) : List KbRow :=
  ks.map fun k => if k.repositoryId = rid then f k else k

/-- Mutate the wiki row for the given repository id. -/
def setWikiRow (ws : List WikiRow) (rid : Nat) (f : WikiRow → WikiRow) :
    List WikiRow :=
  ws.map fun w => if w.repositoryId = rid then f w else w

/-- Autoincrement primary key for a fresh repository row. -/
def freshRepoId (rs : List RepoRow) : Nat :=
  (rs.map RepoRow.id).foldr max 0 + 1

/-- Autoincrement primary key for a fresh knowledge-base row. -/
def freshKbId (ks : List KbRow) : Nat :=
  (ks.map KbRow.id).foldr max 0 + 1

/-- Autoincrement primary key for a fresh wiki row. -/
def freshWikiId (ws : List WikiRow) : Nat :=
  (ws.map WikiRow.id).foldr max 0 + 1

/-! ## SQLAlchemy session (src/backend/tasks.py `db_session_scope`)

A session is a pair of stores: the committed database and the session's
current view (committed data plus pending uncommitted changes).
`commit` publishes the current view; `rollback` discards pending changes. -/

structure DbSession where
  committed : Store
  current : Store
deriving DecidableEq, Repr

def DbSession.commit (s : DbSession) : DbSession := ⟨s.current, s.current⟩

def DbSession.rollback (s : DbSession) : DbSession := ⟨s.committed, s.committed⟩

def DbSession.modify (s : DbSession) (f : Store → Store) : DbSession :=
  ⟨s.committed, f s.current⟩

/-- `SessionLocal()`: a fresh session over the committed database. -/
def DbSession.open (db : Store) : DbSession := ⟨db, db⟩

/-! ## update_task_status_in_db (src/backend/tasks.py lines 40-56) -/

/-- The body of `update_task_status_in_db` when nothing throws: query the
task row; when present, write `status`, overwrite `result` / `progress`
only when given (`if result is not None`, `if progress is not None`) and
commit; when absent, log and leave the session untouched. -/
def updateTaskStatus (s : DbSession) (taskId status : String)
    (result : Option String) (progress : Option Nat) : DbSession :=
  match findTaskById s.current.tasks taskId with
  | some _ =>
    (s.modify fun st =>
      { st with tasks := setTaskRow st.tasks taskId fun t =>
          { t with
            status := status
            result := match result with
              | some r => some r
              | none => t.result
            progress := match progress with
              | some p => some p
              | none => t.progress } }).commit
  | none => s

/-- `update_task_status_in_db`: the body above wrapped in the source's
`try/except`.  `fault` injects an exception thrown by the query or the
commit (`some e`); the handler logs and calls `db.rollback()`.  The outer
`Except` is the exception channel toward the caller: the function would
raise only by returning `Except.error`. -/
def update_task_status_in_db (fault : Option String) (s : DbSession)
    (taskId status : String) (result : Option String) (progress : Option Nat) :
    Except String DbSession :=
  let attempt : Except String DbSession :=
    match fault with
    | some e => Except.error e
    | none => Except.ok (updateTaskStatus s taskId status result progress)
  match attempt with
  | Except.ok s1 => Except.ok s1
  | Except.error _ => Except.ok s.rollback

/-! ## Worker bodies (src/backend/tasks.py)

Each worker is a function from the committed database to the committed
database it leaves behind, plus the task outcome (`Except.ok` return value
or the re-raised exception).  External collaborators are outcome
parameters: the README fetch, the index pipeline run, and the wiki
generation call. -/

/-- The `except Exception` block shared by both workers followed by the
exit of `db_session_scope` on a raised exception: write the FAILURE status
with the error info (its own committed step), then the scope rolls back
whatever is still pending and re-raises. -/
def workerFail (s : DbSession) (taskId e : String) : Store × Except String String :=
  let s1 := updateTaskStatus s taskId "FAILURE" (some e) (some 0)
  (s1.rollback.committed, Except.error e)

/-- Outcomes of the collaborators `index_repository_task` calls:
`GithubService.get_readme_content` (a README string, or a raised
exception) and `IndexPipeline.run` (run only on nonempty content). -/
structure IndexEnv where
  fetchReadme : Except String String
  pipelineRun : Except String Unit

/-- `index_repository_task`, step by step over one `db_session_scope`
session: STARTED status; resolve owner/name from the URL (a `ValueError`
lands in the handler); find-or-create the `Repository` row by url
(committing a creation); attach the task row to the repository; PROGRESS
20; fetch the README; PROGRESS 50; run the index pipeline when content is
nonempty; set `last_indexed_at` and find-or-create / increment the
`KnowledgeBase` row, commit; SUCCESS status; scope commit.  Any raise goes
through `workerFail`. -/
def index_repository_task (env : IndexEnv) (taskId repoUrl : String)
    (db : Store) : Store × Except String String :=
  let s := DbSession.open db
  let s := updateTaskStatus s taskId "STARTED" none none
  match extract_owner_repo_from_url repoUrl with
  | Except.error e => workerFail s taskId e
  | Except.ok (owner, name) =>
    let (s, repoId) :=
      match findRepoByUrl s.current.repos repoUrl with
      | some r => (s, r.id)
      | none =>
        let rid := freshRepoId s.current.repos
        ((s.modify fun st =>
            { st with repos := st.repos ++ [(⟨rid, repoUrl, name, owner, false⟩ : RepoRow)] }).commit,
         rid)
    let s :=
      match findTaskById s.current.tasks taskId with
      | some _ =>
        (s.modify fun st =>
          { st with tasks := setTaskRow st.tasks taskId fun t =>
              { t with repositoryId := some repoId } }).commit
      | none => s
    let s := updateTaskStatus s taskId "PROGRESS" none (some 20)
    match env.fetchReadme with
    | Except.error e => workerFail s taskId e
    | Except.ok readme =>
      let s := updateTaskStatus s taskId "PROGRESS" none (some 50)
      match (if readme = "" then Except.ok () else env.pipelineRun) with
      | Except.error e => workerFail s taskId e
      | Except.ok () =>
        let s := s.modify fun st =>
          { st with repos := setRepoRow st.repos repoId fun r =>
              { r with lastIndexed := true } }
        let docAdd : Nat := if readme = "" then 0 else 1
        let s :=
          match findKbByRepo s.current.kbs repoId with
          | none =>
            s.modify fun st =>
              { st with kbs := st.kbs ++ [(⟨freshKbId st.kbs, repoId, docAdd⟩ : KbRow)] }
          | some kb =>
            s.modify fun st =>
              { st with kbs := setKbRow st.kbs repoId fun k =>
                  { k with documentCount := kb.documentCount + docAdd } }
        let s := s.commit
        let msg := "Successfully indexed " ++ repoUrl
        let s := updateTaskStatus s taskId "SUCCESS" (some msg) (some 100)
        (s.commit.committed, Except.ok msg)

/-- Outcome of `WikiService.generate_wiki_from_repo_readme`: generated
markdown, or a raised exception. -/
structure WikiEnv where
  generateWiki : Except String String

/-- `generate_wiki_task`, step by step over one `db_session_scope`
session: STARTED status; look up the `Repository` row by url and fail fast
(FAILURE status, then `ValueError`) when absent; attach the task row when
its `repository_id` is unset; PROGRESS 30; generate content (empty output
is a FAILURE + raise); PROGRESS 80; overwrite-and-bump or create the
`WikiDocument` row, commit; SUCCESS status; scope commit. -/
def generate_wiki_task (env : WikiEnv) (taskId repoUrl : String)
    (db : Store) : Store × Except String String :=
  let s := DbSession.open db
  let s := updateTaskStatus s taskId "STARTED" none none
  match findRepoByUrl s.current.repos repoUrl with
  | none =>
    let s := updateTaskStatus s taskId "FAILURE"
      (some ("Repository not found for " ++ repoUrl)) none
    workerFail s taskId ("Repository at " ++ repoUrl ++ " not found in database.")
  | some repo =>
    let s :=
      match findTaskById s.current.tasks taskId with
      | some t =>
        if t.repositoryId = none then
          (s.modify fun st =>
            { st with tasks := setTaskRow st.tasks taskId fun t1 =>
                { t1 with repositoryId := some repo.id } }).commit
        else s
      | none => s
    let s := updateTaskStatus s taskId "PROGRESS" none (some 30)
    match env.generateWiki with
    | Except.error e => workerFail s taskId e
    | Except.ok content =>
      if content = "" then
        let s := updateTaskStatus s taskId "FAILURE"
          (some "Wiki generation returned no content.") none
        workerFail s taskId "Wiki generation returned no content."
      else
        let s := updateTaskStatus s taskId "PROGRESS" none (some 80)
        let s :=
          match findWikiByRepo s.current.wikis repo.id with
          | some w =>
            s.modify fun st =>
              { st with wikis := setWikiRow st.wikis repo.id fun w1 =>
                  { w1 with contentMarkdown := content, version := w.version + 1 } }
          | none =>
            s.modify fun st =>
              { st with wikis := st.wikis ++ [(⟨freshWikiId st.wikis, repo.id, content, 1⟩ : WikiRow)] }
        let s := s.commit
        let msg := "Successfully generated wiki for " ++ repoUrl
        let s := updateTaskStatus s taskId "SUCCESS" (some msg) (some 100)
        (s.commit.committed, Except.ok msg)

end OpenDeepwiki

namespace OpenDeepwiki

example :
    extract_owner_repo_from_url "https://github.com/acme/widgets/tree/main" =
      Except.ok ("acme", "widgets") := by rfl

example :
    extract_owner_repo_from_url "https://github.com/acme/widgets.git" =
      Except.ok ("acme", "widgets") := by rfl

example :
    (extract_owner_repo_from_url "https://github.com/my.owner/repo").isOk = false := by decide

example :
    (extract_owner_repo_from_url "https://github.com/acme/wid..gets").isOk = false := by decide

/-! ## Resolver lemmas -/

lemma takeWhile_append_of_all (p : Char → Bool) (l1 l2 : List Char)
    (h : l1.all p = true) :
    (l1 ++ l2).takeWhile p = l1 ++ l2.takeWhile p := by
  induction l1 with
  | nil => simp
  | cons a l ih =>
    simp only [List.all_cons, Bool.and_eq_true] at h
    simp [List.takeWhile_cons, h.1, ih h.2]

lemma dropWhile_append_of_all (p : Char → Bool) (l1 l2 : List Char)
    (h : l1.all p = true) :
    (l1 ++ l2).dropWhile p = l2.dropWhile p := by
  induction l1 with
  | nil => simp
  | cons a l ih =>
    simp only [List.all_cons, Bool.and_eq_true] at h
    simp [List.dropWhile_cons, h.1, ih h.2]

/-- The regex match on a well-shaped URL: prefix, an owner-character run,
a slash, a repo-character run, and a tail that starts with a non-repo
character (or is empty) captures exactly `(o, n)`. -/
lemma matchOwnerRepo_spec (o n tail : List Char)
    (ho1 : o ≠ []) (ho2 : o.all isOwnerChar = true)
    (hn1 : n ≠ []) (hn2 : n.all isRepoChar = true)
    (ht : tail = [] ∨ ∃ c ts, tail = c :: ts ∧ isRepoChar c = false) :
    matchOwnerRepo (githubBase ++ (o ++ '/' :: (n ++ tail))) = some (o, n) := by
  have hpre : githubBase.isPrefixOf (githubBase ++ (o ++ '/' :: (n ++ tail))) = true := by
    rw [List.isPrefixOf_iff_prefix]; exact List.prefix_append _ _
  have hdrop : (githubBase ++ (o ++ '/' :: (n ++ tail))).drop githubBase.length
      = o ++ '/' :: (n ++ tail) := List.drop_left _ _
  have hslash : isOwnerChar '/' = false := by decide
  have htw : (o ++ '/' :: (n ++ tail)).takeWhile isOwnerChar = o := by
    rw [takeWhile_append_of_all _ _ _ ho2]
    simp [List.takeWhile_cons, hslash]
  have hdw : (o ++ '/' :: (n ++ tail)).dropWhile isOwnerChar = '/' :: (n ++ tail) := by
    rw [dropWhile_append_of_all _ _ _ ho2]
    simp [List.dropWhile_cons, hslash]
  have htw2 : (n ++ tail).takeWhile isRepoChar = n := by
    rw [takeWhile_append_of_all _ _ _ hn2]
    rcases ht with h | ⟨c, ts, rfl, hc⟩
    · simp [h]
    · simp [List.takeWhile_cons, hc]
  simp only [matchOwnerRepo, hpre, if_true, hdrop, htw, hdw, htw2]
  simp [List.isEmpty_iff, ho1, hn1]

/-- A valid owner per the validation regex contains only alphanumerics
and hyphens. -/
lemma ownerOk_all_alnumHyphen (o : List Char) (h : ownerOk o = true) :
    o.all (fun c => isAlnum c || c = '-') = true := by
  cases o with
  | nil => exact absurd h (by simp [ownerOk])
  | cons c rest =>
    cases rest with
    | nil =>
      have hc : isAlnum c = true := h
      simp [List.all_cons, hc]
    | cons d ds =>
      simp only [ownerOk, Bool.and_eq_true] at h
      obtain ⟨⟨⟨hc, _⟩, hmid⟩, hlast⟩ := h
      rw [List.all_eq_true]
      intro x hx
      rcases List.mem_cons.mp hx with rfl | hx2
      · simp [hc]
      · have hne : (d :: ds) ≠ ([] : List Char) := by simp
        have hdecomp := List.dropLast_append_getLast hne
        rw [← hdecomp] at hx2
        rcases List.mem_append.mp hx2 with hmem | hmem
        · exact (List.all_eq_true.mp hmid) x hmem
        · have hxl : x = (d :: ds).getLast hne := by simpa using hmem
          subst hxl
          rw [List.getLast?_eq_getLast _ hne] at hlast
          simp only at hlast
          simp [hlast]

lemma ownerOk_all_isOwnerChar (o : List Char) (h : ownerOk o = true) :
    o.all isOwnerChar = true := by
  have h2 := ownerOk_all_alnumHyphen o h
  rw [List.all_eq_true] at h2 ⊢
  intro x hx
  have h4 : isAlnum x = true ∨ x = '-' := by simpa using h2 x hx
  rcases h4 with h3 | h3
  · simp [isOwnerChar, h3]
  · subst h3
    decide

lemma ownerOk_ne_nil (o : List Char) (h : ownerOk o = true) : o ≠ [] := by
  intro he; subst he; exact absurd h (by simp [ownerOk])

lemma repoOk_all_isRepoChar (r : List Char) (h : repoOk r = true) :
    r.all isRepoChar = true := by
  simp only [repoOk, Bool.and_eq_true] at h
  exact h.1.1.2

lemma repoOk_ne_nil (r : List Char) (h : repoOk r = true) : r ≠ [] := by
  intro he; subst he; exact absurd h (by simp [repoOk])

lemma stripGitSuffix_append_git (l : List Char) :
    stripGitSuffix (l ++ ['.', 'g', 'i', 't']) = l := by
  unfold stripGitSuffix
  rw [if_pos]
  · have h4 : (l ++ ['.', 'g', 'i', 't']).length - 4 = l.length := by
      simp [List.length_append]
    rw [h4]
    exact List.take_left _ _
  · rw [List.isSuffixOf_iff_suffix]
    exact List.suffix_append _ _

lemma stripGitSuffix_of_not_suffix (l : List Char)
    (h : List.isSuffixOf ['.', 'g', 'i', 't'] l = false) :
    stripGitSuffix l = l := by
  unfold stripGitSuffix
  rw [h]
  simp

lemma ownerOk_eq_false_of_mem_dot (o : List Char) (h : '.' ∈ o) :
    ownerOk o = false := by
  cases hok : ownerOk o
  · rfl
  · exfalso
    have h2 := List.all_eq_true.mp (ownerOk_all_alnumHyphen o hok) '.' h
    exact absurd h2 (by decide)

lemma ownerOk_eq_false_of_head_hyphen (o : List Char) (h : o.head? = some '-') :
    ownerOk o = false := by
  cases o with
  | nil => simp at h
  | cons c rest =>
    have hc : c = '-' := by simpa using h
    subst hc
    cases rest with
    | nil => decide
    | cons d ds =>
      have hh : isAlnum '-' = false := by decide
      simp [ownerOk, hh]

lemma repoOk_stripGit_head_hyphen (n : List Char) (h : n.head? = some '-') :
    repoOk (stripGitSuffix n) = false := by
  cases n with
  | nil => simp at h
  | cons c rest =>
    have hc : c = '-' := by simpa using h
    subst hc
    unfold stripGitSuffix
    by_cases hs : List.isSuffixOf ['.', 'g', 'i', 't'] ('-' :: rest) = true
    · rw [if_pos hs]
      cases hm : ('-' :: rest).length - 4 with
      | zero => rw [List.take_zero]; decide
      | succ m => rw [List.take_succ_cons]; simp [repoOk]
    · rw [if_neg hs]
      simp [repoOk]

lemma repoOk_eq_false_of_hasDotDot (r : List Char) (h : hasDotDot r = true) :
    repoOk r = false := by
  simp [repoOk, h]

lemma url_data_decomp (owner name ext rest : String) :
    ("https://github.com/" ++ owner ++ "/" ++ name ++ ext ++ rest).data
      = githubBase ++ (owner.data ++ '/' :: ((name.data ++ ext.data) ++ rest.data)) := by
  have hslash : ("/" : String).data = ['/'] := rfl
  simp [String.data_append, githubBase, hslash, List.append_assoc]

lemma url_data_decomp2 (owner name rest : String) :
    ("https://github.com/" ++ owner ++ "/" ++ name ++ rest).data
      = githubBase ++ (owner.data ++ '/' :: (name.data ++ rest.data)) := by
  have hslash : ("/" : String).data = ['/'] := rfl
  simp [String.data_append, githubBase, hslash, List.append_assoc]

/-- C3: for every URL `https://github.com/<owner>/<name>` followed by
optional extras (a trailing `.git`, a trailing slash, or further path
segments such as `/tree/<branch>` or `/blob/...`), where `owner` and
`name` satisfy the validation character-class rules (`name` in canonical
form, i.e. not itself ending in the `.git` extra), the resolver returns
exactly `(owner, name)`: the `.git` extra is stripped and all further path
segments are ignored. -/
theorem c3_resolver_returns_owner_name_for_valid_urls
    (owner name rest : String) (useGit : Bool)
    (howner : ownerOk owner.data = true)
    (hname : repoOk name.data = true)
    (hnogit : List.isSuffixOf ['.', 'g', 'i', 't'] name.data = false)
    (hrest : rest.data = [] ∨ ∃ rs, rest.data = '/' :: rs) :
    extract_owner_repo_from_url
        ("https://github.com/" ++ owner ++ "/" ++ name ++
          (if useGit then ".git" else "") ++ rest) =
      Except.ok (owner, name) := by
  have hgit : (if useGit then (".git" : String) else "").data
      = (if useGit then ['.', 'g', 'i', 't'] else []) := by
    cases useGit <;> rfl
  have hrest2 : rest.data = [] ∨ ∃ c ts, rest.data = c :: ts ∧ isRepoChar c = false := by
    rcases hrest with h | ⟨rs, h⟩
    · exact Or.inl h
    · exact Or.inr ⟨'/', rs, h, by decide⟩
  have hmatch := matchOwnerRepo_spec owner.data
      (name.data ++ (if useGit then ['.', 'g', 'i', 't'] else [])) rest.data
      (ownerOk_ne_nil _ howner) (ownerOk_all_isOwnerChar _ howner)
      (List.append_ne_nil_of_left_ne_nil (repoOk_ne_nil _ hname) _)
      (by
        rw [List.all_append, repoOk_all_isRepoChar _ hname, Bool.true_and]
        cases useGit <;> decide)
      hrest2
  have hstrip : stripGitSuffix (name.data ++ (if useGit then ['.', 'g', 'i', 't'] else []))
      = name.data := by
    cases useGit
    · simp only [if_neg Bool.false_ne_true, List.append_nil]
      exact stripGitSuffix_of_not_suffix _ hnogit
    · simp only [if_pos rfl]
      exact stripGitSuffix_append_git _
  unfold extract_owner_repo_from_url
  rw [url_data_decomp, hgit, hmatch]
  simp only [hstrip, howner, hname, Bool.not_true, Bool.false_eq_true, if_false]

/-- Witness for C3 at `https://github.com/acme/widgets.git/tree/main`. -/
theorem c3_resolver_returns_owner_name_for_valid_urls_witness :
    extract_owner_repo_from_url
        ("https://github.com/" ++ "acme" ++ "/" ++ "widgets" ++
          (if true then ".git" else "") ++ "/tree/main") =
      Except.ok ("acme", "widgets") :=
  c3_resolver_returns_owner_name_for_valid_urls "acme" "widgets" "/tree/main" true
    (by decide) (by decide) (by decide)
    (Or.inr ⟨"tree/main".data, by decide⟩)

/-- C4: the resolver raises `ValueError` for every well-shaped URL whose
owner contains a period, whose owner starts with a hyphen, whose name
starts with a hyphen, or whose name (after stripping a trailing `.git`)
contains `..`. -/
theorem c4_resolver_rejects_invalid_owner_or_name (owner name rest : String)
    (ho1 : owner.data ≠ []) (ho2 : owner.data.all isOwnerChar = true)
    (hn1 : name.data ≠ []) (hn2 : name.data.all isRepoChar = true)
    (hrest : rest.data = [] ∨ ∃ rs, rest.data = '/' :: rs)
    (hbad : '.' ∈ owner.data ∨ owner.data.head? = some '-' ∨
            name.data.head? = some '-' ∨ hasDotDot (stripGitSuffix name.data) = true) :
    ∃ e, extract_owner_repo_from_url
        ("https://github.com/" ++ owner ++ "/" ++ name ++ rest) = Except.error e := by
  have hrest2 : rest.data = [] ∨ ∃ c ts, rest.data = c :: ts ∧ isRepoChar c = false := by
    rcases hrest with h | ⟨rs, h⟩
    · exact Or.inl h
    · exact Or.inr ⟨'/', rs, h, by decide⟩
  have hmatch := matchOwnerRepo_spec owner.data name.data rest.data ho1 ho2 hn1 hn2 hrest2
  unfold extract_owner_repo_from_url
  rw [url_data_decomp2, hmatch]
  rcases hbad with h | h | h | h
  · have hof : ownerOk owner.data = false := ownerOk_eq_false_of_mem_dot _ h
    exact ⟨"Invalid owner name format: " ++ String.mk owner.data, by simp [hof]⟩
  · have hof := ownerOk_eq_false_of_head_hyphen _ h
    exact ⟨"Invalid owner name format: " ++ String.mk owner.data, by simp [hof]⟩
  · cases hok : ownerOk owner.data
    · exact ⟨"Invalid owner name format: " ++ String.mk owner.data, by simp [hok]⟩
    · have hrf := repoOk_stripGit_head_hyphen _ h
      exact ⟨"Invalid repository name format: " ++ String.mk (stripGitSuffix name.data),
        by simp [hok, hrf]⟩
  · cases hok : ownerOk owner.data
    · exact ⟨"Invalid owner name format: " ++ String.mk owner.data, by simp [hok]⟩
    · have hrf := repoOk_eq_false_of_hasDotDot _ h
      exact ⟨"Invalid repository name format: " ++ String.mk (stripGitSuffix name.data),
        by simp [hok, hrf]⟩

/-- Witness for C4 at `https://github.com/my.owner/repo`. -/
theorem c4_resolver_rejects_invalid_owner_or_name_witness :
    ∃ e, extract_owner_repo_from_url
        ("https://github.com/" ++ "my.owner" ++ "/" ++ "repo" ++ "") = Except.error e :=
  c4_resolver_rejects_invalid_owner_or_name "my.owner" "repo" ""
    (by decide) (by decide) (by decide) (by decide) (Or.inl (by decide))
    (Or.inl (by decide))

/-! ## Dispatcher and status-reporter claims -/

/-- C5: dispatch never raises to its caller.  For every environment,
`create_indexing_task` and `create_wiki_generation_task` terminate with a
returned value (the `Except` channel carries no error), and whenever the
Celery app is unavailable, the worker function is unregistered, or
`apply_async` throws, they return `None` (and write no job record). -/
theorem c5_dispatch_never_raises (env : DispatchEnv) (repoUrl : String) :
    (∃ v, create_indexing_task env repoUrl = Except.ok v) ∧
    (∃ v, create_wiki_generation_task env repoUrl = Except.ok v) ∧
    ((env.appAvailable = false ∨ env.indexTaskAvailable = false ∨
        (∃ e, env.applyAsync = Except.error e)) →
      create_indexing_task env repoUrl = Except.ok (none, [])) ∧
    ((env.appAvailable = false ∨ env.wikiTaskAvailable = false ∨
        (∃ e, env.applyAsync = Except.error e)) →
      create_wiki_generation_task env repoUrl = Except.ok (none, [])) := by
  obtain ⟨app, idx, wik, aa⟩ := env
  cases app <;> cases idx <;> cases wik <;> cases aa <;>
    simp [create_indexing_task, create_wiki_generation_task, dispatch_task]

/-- Witness for C5 with the Celery app unavailable. -/
theorem c5_dispatch_never_raises_witness :
    (∃ v, create_indexing_task ⟨false, true, true, Except.ok "t1"⟩ "u" = Except.ok v) ∧
    (∃ v, create_wiki_generation_task ⟨false, true, true, Except.ok "t1"⟩ "u" = Except.ok v) ∧
    (((⟨false, true, true, Except.ok "t1"⟩ : DispatchEnv).appAvailable = false ∨
        (⟨false, true, true, Except.ok "t1"⟩ : DispatchEnv).indexTaskAvailable = false ∨
        (∃ e, (⟨false, true, true, Except.ok "t1"⟩ : DispatchEnv).applyAsync = Except.error e)) →
      create_indexing_task ⟨false, true, true, Except.ok "t1"⟩ "u" = Except.ok (none, [])) ∧
    (((⟨false, true, true, Except.ok "t1"⟩ : DispatchEnv).appAvailable = false ∨
        (⟨false, true, true, Except.ok "t1"⟩ : DispatchEnv).wikiTaskAvailable = false ∨
        (∃ e, (⟨false, true, true, Except.ok "t1"⟩ : DispatchEnv).applyAsync = Except.error e)) →
      create_wiki_generation_task ⟨false, true, true, Except.ok "t1"⟩ "u" = Except.ok (none, [])) :=
  c5_dispatch_never_raises ⟨false, true, true, Except.ok "t1"⟩ "u"

/-- C6 counterexample: with the Celery app unavailable, the status
reporter returns a dict whose keys are exactly
`task_id, status, result` — the claimed fixed schema
`task_id, status, result, details` is not carried (no `details` key). -/
theorem c6_fixed_schema_counterexample :
    (get_task_status ⟨false, ⟨fun _ => none⟩, none⟩ "t1").map (List.map Prod.fst)
      = Except.ok ["task_id", "status", "result"] ∧
    ("task_id" :: "status" :: "result" :: [] : List String)
      ≠ ["task_id", "status", "result", "details"] := by
  exact ⟨rfl, by decide⟩

/-- C6 amended: the status reporter never raises; it returns UNKNOWN with
the connection-error message when the Celery app is unavailable and
ERROR_FETCHING_STATUS with the exception message when the query throws,
but those two synthetic responses carry only the keys
`task_id, status, result` (no `details` key); the normal-path response
carries all four keys. -/
theorem c6_amended_status_reporter_never_raises (env : StatusEnv) (taskId : String) :
    (∃ v, get_task_status env taskId = Except.ok v ∧
      (v.map Prod.fst = ["task_id", "status", "result"] ∨
       v.map Prod.fst = ["task_id", "status", "result", "details"])) ∧
    (env.appAvailable = false →
      get_task_status env taskId =
        Except.ok [("task_id", some taskId), ("status", some "UNKNOWN"),
                   ("result", some "Celery connection error.")]) ∧
    (∀ e, env.appAvailable = true → env.queryFault = some e →
      get_task_status env taskId =
        Except.ok [("task_id", some taskId), ("status", some "ERROR_FETCHING_STATUS"),
                   ("result", some e)]) := by
  obtain ⟨app, b, qf⟩ := env
  cases app <;> cases qf <;>
    simp [get_task_status]

/-- Witness for the amended C6 with the Celery app unavailable. -/
theorem c6_amended_status_reporter_never_raises_witness :
    (∃ v, get_task_status ⟨false, ⟨fun _ => none⟩, none⟩ "t2" = Except.ok v ∧
      (v.map Prod.fst = ["task_id", "status", "result"] ∨
       v.map Prod.fst = ["task_id", "status", "result", "details"])) ∧
    ((⟨false, ⟨fun _ => none⟩, none⟩ : StatusEnv).appAvailable = false →
      get_task_status ⟨false, ⟨fun _ => none⟩, none⟩ "t2" =
        Except.ok [("task_id", some "t2"), ("status", some "UNKNOWN"),
                   ("result", some "Celery connection error.")]) ∧
    (∀ e, (⟨false, ⟨fun _ => none⟩, none⟩ : StatusEnv).appAvailable = true →
      (⟨false, ⟨fun _ => none⟩, none⟩ : StatusEnv).queryFault = some e →
      get_task_status ⟨false, ⟨fun _ => none⟩, none⟩ "t2" =
        Except.ok [("task_id", some "t2"), ("status", some "ERROR_FETCHING_STATUS"),
                   ("result", some e)]) :=
  c6_amended_status_reporter_never_raises ⟨false, ⟨fun _ => none⟩, none⟩ "t2"

/-- C1: every successful dispatch writes a PENDING job record for the
returned job id, and the status reporter immediately reports PENDING for
that id (the worker-pool backend holding nothing for a freshly dispatched,
not-yet-started job, per the spec-modelled `asyncResult` semantics). -/
theorem c1_dispatch_writes_pending_record_retrievable
    (env : DispatchEnv) (repoUrl tid : String) (recs : List JobRecord)
    (senv : StatusEnv)
    (hdisp : create_indexing_task env repoUrl = Except.ok (some tid, recs) ∨
             create_wiki_generation_task env repoUrl = Except.ok (some tid, recs))
    (happ : senv.appAvailable = true) (hfault : senv.queryFault = none)
    (hfresh : senv.backend.meta tid = none) :
    (∃ nm, recs = [⟨tid, nm, "PENDING"⟩]) ∧
    get_task_status senv tid =
      Except.ok [("task_id", some tid), ("status", some "PENDING"),
                 ("result", none), ("details", none)] := by
  obtain ⟨sapp, sb, sqf⟩ := senv
  simp only at happ hfault
  subst happ
  subst hfault
  constructor
  · obtain ⟨app, idx, wik, aa⟩ := env
    rcases hdisp with h | h <;>
      cases app <;> cases idx <;> cases wik <;> cases aa <;>
        simp [create_indexing_task, create_wiki_generation_task, dispatch_task] at h <;>
        (obtain ⟨h1, h2⟩ := h; subst h1; exact ⟨_, h2.symm⟩)
  · have hf2 : sb.meta tid = none := hfresh
    simp [get_task_status, asyncResult, hf2]

/-- Witness for C1 with a successful indexing dispatch. -/
theorem c1_dispatch_writes_pending_record_retrievable_witness :
    (∃ nm, ([⟨"t1", "repository_indexing", "PENDING"⟩] : List JobRecord)
      = [⟨"t1", nm, "PENDING"⟩]) ∧
    get_task_status ⟨true, ⟨fun _ => none⟩, none⟩ "t1" =
      Except.ok [("task_id", some "t1"), ("status", some "PENDING"),
                 ("result", none), ("details", none)] :=
  c1_dispatch_writes_pending_record_retrievable ⟨true, true, true, Except.ok "t1"⟩
    "u" "t1" [⟨"t1", "repository_indexing", "PENDING"⟩] ⟨true, ⟨fun _ => none⟩, none⟩
    (Or.inl rfl) rfl rfl rfl

/-! ## Job-record status-writer claim -/

/-- C10: `update_task_status_in_db` is total and never raises: for every
input it returns `Except.ok`; with no fault and a missing task row it
returns the session unchanged; and when the database write throws, the
exception is caught and the session rolled back internally, so the caller
never sees it. -/
theorem c10_update_task_status_never_raises (fault : Option String) (s : DbSession)
    (taskId status : String) (result : Option String) (progress : Option Nat) :
    (∃ s1, update_task_status_in_db fault s taskId status result progress = Except.ok s1) ∧
    (fault = none → findTaskById s.current.tasks taskId = none →
      update_task_status_in_db fault s taskId status result progress = Except.ok s) ∧
    (∀ e, fault = some e →
      update_task_status_in_db fault s taskId status result progress =
        Except.ok s.rollback) := by
  refine ⟨?_, ?_, ?_⟩
  · cases fault <;> exact ⟨_, rfl⟩
  · intro h1 h2
    subst h1
    simp [update_task_status_in_db, updateTaskStatus, h2]
  · intro e h1
    subst h1
    rfl

/-- Witness for C10 with a throwing database write. -/
theorem c10_update_task_status_never_raises_witness :
    (∃ s1, update_task_status_in_db (some "db down") ⟨⟨[], [], [], []⟩, ⟨[], [], [], []⟩⟩
        "t1" "SUCCESS" none none = Except.ok s1) ∧
    ((some "db down" : Option String) = none →
      findTaskById (⟨⟨[], [], [], []⟩, ⟨[], [], [], []⟩⟩ : DbSession).current.tasks "t1" = none →
      update_task_status_in_db (some "db down") ⟨⟨[], [], [], []⟩, ⟨[], [], [], []⟩⟩
        "t1" "SUCCESS" none none = Except.ok ⟨⟨[], [], [], []⟩, ⟨[], [], [], []⟩⟩) ∧
    (∀ e, (some "db down" : Option String) = some e →
      update_task_status_in_db (some "db down") ⟨⟨[], [], [], []⟩, ⟨[], [], [], []⟩⟩
        "t1" "SUCCESS" none none =
        Except.ok (DbSession.rollback ⟨⟨[], [], [], []⟩, ⟨[], [], [], []⟩⟩)) :=
  c10_update_task_status_never_raises (some "db down")
    ⟨⟨[], [], [], []⟩, ⟨[], [], [], []⟩⟩ "t1" "SUCCESS" none none

/-! ## Worker-body claims -/

/-- C9: running `generate_wiki_task` for a url with no existing
`Repository` row creates no `Repository` row, ends the job record in
status FAILURE, and records a result describing that the repository was
not found (the worker re-raises). -/
theorem c9_wiki_fails_fast_without_repository (env : WikiEnv) (taskId repoUrl : String)
    (row : TaskRow) (db : Store)
    (hnorepo : findRepoByUrl db.repos repoUrl = none)
    (htasks : db.tasks = [row]) (hrow : row.id = taskId) :
    generate_wiki_task env taskId repoUrl db =
      ({ db with tasks := [⟨taskId, "FAILURE",
           some ("Repository at " ++ repoUrl ++ " not found in database."),
           some 0, row.repositoryId⟩] },
       Except.error ("Repository at " ++ repoUrl ++ " not found in database.")) := by
  obtain ⟨repos, kbs, wikis, tasks⟩ := db
  simp only at htasks hnorepo
  subst htasks
  obtain ⟨rid, rst, rres, rprog, rrepo⟩ := row
  simp only at hrow
  subst hrow
  simp [generate_wiki_task, updateTaskStatus, findTaskById, setTaskRow, workerFail,
        DbSession.open, DbSession.commit, DbSession.modify, DbSession.rollback, hnorepo]

/-- Witness for C9 on an empty repository table. -/
theorem c9_wiki_fails_fast_without_repository_witness :
    generate_wiki_task ⟨Except.ok "wiki text"⟩ "t9" "https://github.com/acme/nope"
        ⟨[], [], [], [⟨"t9", "PENDING", none, none, none⟩]⟩ =
      ({ (⟨[], [], [], [⟨"t9", "PENDING", none, none, none⟩]⟩ : Store) with
         tasks := [⟨"t9", "FAILURE",
           some ("Repository at " ++ "https://github.com/acme/nope" ++ " not found in database."),
           some 0, (⟨"t9", "PENDING", none, none, none⟩ : TaskRow).repositoryId⟩] },
       Except.error ("Repository at " ++ "https://github.com/acme/nope" ++ " not found in database.")) :=
  c9_wiki_fails_fast_without_repository ⟨Except.ok "wiki text"⟩ "t9"
    "https://github.com/acme/nope" ⟨"t9", "PENDING", none, none, none⟩
    ⟨[], [], [], [⟨"t9", "PENDING", none, none, none⟩]⟩ rfl rfl rfl

/-- C2 counterexample: with a failing README fetch, the index job commits
the freshly created `Repository` row before failing, and that domain
write survives the failure — the job-record and domain-entity changes
made so far are NOT rolled back together (the claim would require the
final repository table to be empty again). -/
theorem c2_rollback_together_counterexample :
    (index_repository_task ⟨Except.error "boom", Except.ok ()⟩ "t1"
        "https://github.com/acme/widgets"
        ⟨[], [], [], [⟨"t1", "PENDING", none, none, none⟩]⟩).2
      = Except.error "boom" ∧
    (⟨[], [], [], [⟨"t1", "PENDING", none, none, none⟩]⟩ : Store).repos = [] ∧
    (index_repository_task ⟨Except.error "boom", Except.ok ()⟩ "t1"
        "https://github.com/acme/widgets"
        ⟨[], [], [], [⟨"t1", "PENDING", none, none, none⟩]⟩).1.repos
      = [⟨1, "https://github.com/acme/widgets", "widgets", "acme", false⟩] :=
  ⟨rfl, rfl, rfl⟩

/-- C2 amended: all database writes of one index-job invocation happen in
one session scope, but the scope commits incrementally; on a failure after
partial writes only the uncommitted tail is rolled back — the committed
`Repository` creation survives — and the FAILURE status record is written
and committed independently by the exception handler, surviving the final
scope rollback. -/
theorem c2_amended_committed_writes_survive_failure
    (env : IndexEnv) (taskId repoUrl e o n : String)
    (row : TaskRow) (kbs : List KbRow) (wikis : List WikiRow)
    (hex : extract_owner_repo_from_url repoUrl = Except.ok (o, n))
    (hrow : row.id = taskId)
    (hf : env.fetchReadme = Except.error e) :
    index_repository_task env taskId repoUrl ⟨[], kbs, wikis, [row]⟩ =
      (⟨[⟨1, repoUrl, n, o, false⟩], kbs, wikis,
        [⟨taskId, "FAILURE", some e, some 0, some 1⟩]⟩,
       Except.error e) := by
  obtain ⟨fetch, pipe⟩ := env
  simp only at hf
  subst hf
  obtain ⟨rid, rst, rres, rprog, rrepo⟩ := row
  simp only at hrow
  subst hrow
  simp [index_repository_task, hex, updateTaskStatus, findTaskById, findRepoByUrl,
        setTaskRow, workerFail, DbSession.open, DbSession.commit, DbSession.modify,
        DbSession.rollback, freshRepoId]

/-- Witness for the amended C2 with a failing fetch. -/
theorem c2_amended_committed_writes_survive_failure_witness :
    index_repository_task ⟨Except.error "boom", Except.ok ()⟩ "t1"
        "https://github.com/acme/widgets"
        ⟨[], [], [], [⟨"t1", "PENDING", none, none, none⟩]⟩ =
      (⟨[⟨1, "https://github.com/acme/widgets", "widgets", "acme", false⟩], [], [],
        [⟨"t1", "FAILURE", some "boom", some 0, some 1⟩]⟩,
       Except.error "boom") :=
  c2_amended_committed_writes_survive_failure ⟨Except.error "boom", Except.ok ()⟩
    "t1" "https://github.com/acme/widgets" "boom" "acme" "widgets"
    ⟨"t1", "PENDING", none, none, none⟩ [] [] (by rfl) rfl rfl

/-- C7: running the index job twice for the same url from an empty
database yields exactly one `Repository` row and exactly one
`KnowledgeBase` row, whose `document_count` is the sum of the documents
indexed by each run (1 per run with nonempty README content, else 0). -/
theorem c7_index_twice_single_rows_cumulative_count
    (env1 env2 : IndexEnv) (t1 t2 repoUrl o n c1 c2 : String)
    (hex : extract_owner_repo_from_url repoUrl = Except.ok (o, n))
    (h1 : env1.fetchReadme = Except.ok c1) (hp1 : env1.pipelineRun = Except.ok ())
    (h2 : env2.fetchReadme = Except.ok c2) (hp2 : env2.pipelineRun = Except.ok ()) :
    index_repository_task env1 t1 repoUrl ⟨[], [], [], []⟩
        = (⟨[⟨1, repoUrl, n, o, true⟩], [⟨1, 1, if c1 = "" then 0 else 1⟩], [], []⟩,
           Except.ok ("Successfully indexed " ++ repoUrl)) ∧
    index_repository_task env2 t2 repoUrl
        (index_repository_task env1 t1 repoUrl ⟨[], [], [], []⟩).1
      = (⟨[⟨1, repoUrl, n, o, true⟩],
          [⟨1, 1, (if c1 = "" then 0 else 1) + (if c2 = "" then 0 else 1)⟩], [], []⟩,
         Except.ok ("Successfully indexed " ++ repoUrl)) := by
  obtain ⟨f1, p1⟩ := env1
  obtain ⟨f2, p2⟩ := env2
  simp only at h1 hp1 h2 hp2
  subst h1; subst hp1; subst h2; subst hp2
  have hrun1 : index_repository_task ⟨Except.ok c1, Except.ok ()⟩ t1 repoUrl ⟨[], [], [], []⟩
      = (⟨[⟨1, repoUrl, n, o, true⟩], [⟨1, 1, if c1 = "" then 0 else 1⟩], [], []⟩,
         Except.ok ("Successfully indexed " ++ repoUrl)) := by
    simp [index_repository_task, hex, updateTaskStatus, findTaskById, findRepoByUrl,
          findKbByRepo, setTaskRow, setRepoRow, setKbRow, workerFail, DbSession.open,
          DbSession.commit, DbSession.modify, DbSession.rollback, freshRepoId, freshKbId]
  have hrun2 : ∀ k : Nat, index_repository_task ⟨Except.ok c2, Except.ok ()⟩ t2 repoUrl
      ⟨[⟨1, repoUrl, n, o, true⟩], [⟨1, 1, k⟩], [], []⟩
      = (⟨[⟨1, repoUrl, n, o, true⟩], [⟨1, 1, k + if c2 = "" then 0 else 1⟩], [], []⟩,
         Except.ok ("Successfully indexed " ++ repoUrl)) := by
    intro k
    simp [index_repository_task, hex, updateTaskStatus, findTaskById, findRepoByUrl,
          findKbByRepo, setTaskRow, setRepoRow, setKbRow, workerFail, DbSession.open,
          DbSession.commit, DbSession.modify, DbSession.rollback, freshRepoId, freshKbId]
  refine ⟨hrun1, ?_⟩
  rw [hrun1]
  exact hrun2 (if c1 = "" then 0 else 1)

/-- Witness for C7 with a nonempty first README and an empty second one. -/
theorem c7_index_twice_single_rows_cumulative_count_witness :
    index_repository_task ⟨Except.ok "# Widgets", Except.ok ()⟩ "t1"
        "https://github.com/acme/widgets" ⟨[], [], [], []⟩
      = (⟨[⟨1, "https://github.com/acme/widgets", "widgets", "acme", true⟩],
          [⟨1, 1, if "# Widgets" = "" then 0 else 1⟩], [], []⟩,
         Except.ok ("Successfully indexed " ++ "https://github.com/acme/widgets")) ∧
    index_repository_task ⟨Except.ok "", Except.ok ()⟩ "t2"
        "https://github.com/acme/widgets"
        (index_repository_task ⟨Except.ok "# Widgets", Except.ok ()⟩ "t1"
          "https://github.com/acme/widgets" ⟨[], [], [], []⟩).1
      = (⟨[⟨1, "https://github.com/acme/widgets", "widgets", "acme", true⟩],
          [⟨1, 1, (if "# Widgets" = "" then 0 else 1) + (if "" = "" then 0 else 1)⟩], [], []⟩,
         Except.ok ("Successfully indexed " ++ "https://github.com/acme/widgets")) :=
  c7_index_twice_single_rows_cumulative_count
    ⟨Except.ok "# Widgets", Except.ok ()⟩ ⟨Except.ok "", Except.ok ()⟩
    "t1" "t2" "https://github.com/acme/widgets" "acme" "widgets" "# Widgets" ""
    (by rfl) rfl rfl rfl rfl

/-- C8: for a repository with no wiki yet, the first successful
`generate_wiki_task` run creates the single `WikiDocument` row with
version 1, and a second successful run overwrites its content and bumps
the version to 2 without creating another row. -/
theorem c8_wiki_regenerate_single_row_version_bump
    (env1 env2 : WikiEnv) (t1 t2 repoUrl c1 c2 : String) (repo : RepoRow)
    (hrepo : repo.url = repoUrl)
    (h1 : env1.generateWiki = Except.ok c1) (hc1 : ¬ c1 = "")
    (h2 : env2.generateWiki = Except.ok c2) (hc2 : ¬ c2 = "") :
    generate_wiki_task env1 t1 repoUrl ⟨[repo], [], [], []⟩
        = (⟨[repo], [], [⟨1, repo.id, c1, 1⟩], []⟩,
           Except.ok ("Successfully generated wiki for " ++ repoUrl)) ∧
    generate_wiki_task env2 t2 repoUrl
        (generate_wiki_task env1 t1 repoUrl ⟨[repo], [], [], []⟩).1
      = (⟨[repo], [], [⟨1, repo.id, c2, 2⟩], []⟩,
         Except.ok ("Successfully generated wiki for " ++ repoUrl)) := by
  obtain ⟨g1⟩ := env1
  obtain ⟨g2⟩ := env2
  simp only at h1 h2
  subst h1; subst h2
  obtain ⟨pid, purl, pname, powner, plast⟩ := repo
  simp only at hrepo
  subst hrepo
  have hrun1 : generate_wiki_task ⟨Except.ok c1⟩ t1 purl
      ⟨[⟨pid, purl, pname, powner, plast⟩], [], [], []⟩
      = (⟨[⟨pid, purl, pname, powner, plast⟩], [], [⟨1, pid, c1, 1⟩], []⟩,
         Except.ok ("Successfully generated wiki for " ++ purl)) := by
    simp [generate_wiki_task, updateTaskStatus, findTaskById, findRepoByUrl,
          findWikiByRepo, setTaskRow, setWikiRow, workerFail, DbSession.open,
          DbSession.commit, DbSession.modify, DbSession.rollback, freshWikiId, hc1]
  have hrun2 : generate_wiki_task ⟨Except.ok c2⟩ t2 purl
      ⟨[⟨pid, purl, pname, powner, plast⟩], [], [⟨1, pid, c1, 1⟩], []⟩
      = (⟨[⟨pid, purl, pname, powner, plast⟩], [], [⟨1, pid, c2, 2⟩], []⟩,
         Except.ok ("Successfully generated wiki for " ++ purl)) := by
    simp [generate_wiki_task, updateTaskStatus, findTaskById, findRepoByUrl,
          findWikiByRepo, setTaskRow, setWikiRow, workerFail, DbSession.open,
          DbSession.commit, DbSession.modify, DbSession.rollback, freshWikiId, hc2]
  refine ⟨hrun1, ?_⟩
  rw [hrun1]
  exact hrun2

/-- Witness for C8 on a concrete repository row. -/
theorem c8_wiki_regenerate_single_row_version_bump_witness :
    generate_wiki_task ⟨Except.ok "wiki v1"⟩ "t1" "https://github.com/acme/widgets"
        ⟨[⟨7, "https://github.com/acme/widgets", "widgets", "acme", true⟩], [], [], []⟩
      = (⟨[⟨7, "https://github.com/acme/widgets", "widgets", "acme", true⟩], [],
          [⟨1, (⟨7, "https://github.com/acme/widgets", "widgets", "acme", true⟩ : RepoRow).id,
            "wiki v1", 1⟩], []⟩,
         Except.ok ("Successfully generated wiki for " ++ "https://github.com/acme/widgets")) ∧
    generate_wiki_task ⟨Except.ok "wiki v2"⟩ "t2" "https://github.com/acme/widgets"
        (generate_wiki_task ⟨Except.ok "wiki v1"⟩ "t1" "https://github.com/acme/widgets"
          ⟨[⟨7, "https://github.com/acme/widgets", "widgets", "acme", true⟩], [], [], []⟩).1
      = (⟨[⟨7, "https://github.com/acme/widgets", "widgets", "acme", true⟩], [],
          [⟨1, (⟨7, "https://github.com/acme/widgets", "widgets", "acme", true⟩ : RepoRow).id,
            "wiki v2", 2⟩], []⟩,
         Except.ok ("Successfully generated wiki for " ++ "https://github.com/acme/widgets")) :=
  c8_wiki_regenerate_single_row_version_bump
    ⟨Except.ok "wiki v1"⟩ ⟨Except.ok "wiki v2"⟩ "t1" "t2"
    "https://github.com/acme/widgets" "wiki v1" "wiki v2"
    ⟨7, "https://github.com/acme/widgets", "widgets", "acme", true⟩
    rfl rfl (by decide) rfl (by decide)

end OpenDeepwiki
